import Mathlib

/-!
Verification of the chunk data model of `backend/danswer/indexing/models.py`.

The Python module declares pydantic value classes:
`ChunkEmbedding`, `BaseChunk`, `DocAwareChunk` (with `to_short_descriptor`),
`IndexChunk`, `DocMetadataAwareIndexChunk` (with classmethod `from_index_chunk`)
and `EmbeddingModelDetail` (with classmethod `from_model`).

Each class becomes a Lean structure with the same fields; pydantic keyword
construction (required fields checked, declared defaults applied) becomes an
explicit validating constructor where a claim is about construction; the
classmethods become Lean functions translated line by line from their bodies.

External collaborator types (`Embedding`, `Document`, `DocumentAccess`, the
live `EmbeddingModel` configuration record) are not defined under the source
tree; they are modelled from the specification, as noted on each.
-/

/-- The `Embedding` vector type from `shared_configs.model_server_models`
(external). Modelled from the spec: "an opaque fixed-length numeric vector";
this module never computes with the entries, it only moves vectors by value,
so the entries are taken as rationals. -/
abbrev Embedding := List Rat

/-- Modelled from the spec: `SourceDocument` / `Document` (owned by the
connector subsystem, not under src/) "exposing a stable identifier and a
short-descriptor accessor". -/
structure Document where
  id : String
  short_descriptor : String
  deriving DecidableEq, Repr

/-- The short-descriptor accessor of the external `Document`. -/
def Document.to_short_descriptor (d : Document) : String :=
  d.short_descriptor

/-- Modelled from the spec: the access-control descriptor
(`danswer.access.models.DocumentAccess`, not under src/), "opaque to this
core", "enumerating which principals may retrieve this chunk's owning
document". -/
structure DocumentAccess where
  principals : List String
  deriving DecidableEq, Repr

/-- `class ChunkEmbedding(BaseModel)`: a full-chunk embedding plus one
embedding per mini-chunk. -/
structure ChunkEmbedding where
  full_embedding : Embedding
  mini_chunk_embeddings : List Embedding
  deriving DecidableEq, Repr

/-- `class BaseChunk(BaseModel)`. `source_links: dict[int, str] | None` is
modelled as an optional association list from character offset to link. -/
structure BaseChunk where
  chunk_id : Int
  blurb : String
  content : String
  source_links : Option (List (Int × String))
  section_continuation : Bool
  deriving DecidableEq, Repr

/-- `class DocAwareChunk(BaseChunk)`. `large_chunk_reference_ids` carries the
declared pydantic default `= []`. -/
structure DocAwareChunk extends BaseChunk where
  source_document : Document
  title_prefix : String
  metadata_suffix_semantic : String
  metadata_suffix_keyword : String
  mini_chunk_texts : Option (List String)
  large_chunk_reference_ids : List Int := []
  deriving DecidableEq, Repr

/-- `DocAwareChunk.to_short_descriptor`: the f-string
`f"Chunk ID: '{self.chunk_id}'; {self.source_document.to_short_descriptor()}"`. -/
def DocAwareChunk.to_short_descriptor (c : DocAwareChunk) : String :=
  "Chunk ID: '" ++ toString c.chunk_id ++ "'; " ++ c.source_document.to_short_descriptor

/-- `class IndexChunk(DocAwareChunk)`: attaches the embeddings. The pydantic
class declares no validator relating `mini_chunk_embeddings` to
`mini_chunk_texts`; construction checks field types only, so the structure
carries no such constraint either. -/
structure IndexChunk extends DocAwareChunk where
  embeddings : ChunkEmbedding
  title_embedding : Option Embedding
  deriving DecidableEq, Repr

/-- `class DocMetadataAwareIndexChunk(IndexChunk)`. `document_sets: set[str]`
is modelled as the list of the set's elements. -/
structure DocMetadataAwareIndexChunk extends IndexChunk where
  access : DocumentAccess
  document_sets : List String
  boost : Int
  deriving DecidableEq, Repr

/-! ## The dict serialization used by `from_index_chunk`

`DocMetadataAwareIndexChunk.from_index_chunk` first computes
`index_chunk_data = index_chunk.dict()`: a pydantic dict in which nested
models (`source_document`, `embeddings`) are themselves serialized to plain
dicts. `cls(**index_chunk_data, ...)` then re-validates those dicts back into
model values. The dict forms are separate structures here so that the
detour through the serialization is explicit. -/

/-- The pydantic dict serialization of the external `Document`. -/
structure DocumentDict where
  id : String
  short_descriptor : String
  deriving DecidableEq, Repr

/-- `Document.dict()`. -/
def Document.dict (d : Document) : DocumentDict :=
  { id := d.id, short_descriptor := d.short_descriptor }

/-- Pydantic re-validation of a serialized `Document`. -/
def Document.ofDict (d : DocumentDict) : Document :=
  { id := d.id, short_descriptor := d.short_descriptor }

/-- The pydantic dict serialization of `ChunkEmbedding`. -/
structure ChunkEmbeddingDict where
  full_embedding : Embedding
  mini_chunk_embeddings : List Embedding
  deriving DecidableEq, Repr

/-- `ChunkEmbedding.dict()`. -/
def ChunkEmbedding.dict (e : ChunkEmbedding) : ChunkEmbeddingDict :=
  { full_embedding := e.full_embedding, mini_chunk_embeddings := e.mini_chunk_embeddings }

/-- Pydantic re-validation of a serialized `ChunkEmbedding`. -/
def ChunkEmbedding.ofDict (e : ChunkEmbeddingDict) : ChunkEmbedding :=
  { full_embedding := e.full_embedding, mini_chunk_embeddings := e.mini_chunk_embeddings }

/-- The pydantic dict serialization of an `IndexChunk`: one key per field,
nested models serialized. -/
structure IndexChunkData where
  chunk_id : Int
  blurb : String
  content : String
  source_links : Option (List (Int × String))
  section_continuation : Bool
  source_document : DocumentDict
  title_prefix : String
  metadata_suffix_semantic : String
  metadata_suffix_keyword : String
  mini_chunk_texts : Option (List String)
  large_chunk_reference_ids : List Int
  embeddings : ChunkEmbeddingDict
  title_embedding : Option Embedding
  deriving DecidableEq, Repr

/-- `IndexChunk.dict()`: every field by value, nested models via their own
dict serialization. -/
def IndexChunk.dict (ic : IndexChunk) : IndexChunkData :=
  { chunk_id := ic.chunk_id
    blurb := ic.blurb
    content := ic.content
    source_links := ic.source_links
    section_continuation := ic.section_continuation
    source_document := ic.source_document.dict
    title_prefix := ic.title_prefix
    metadata_suffix_semantic := ic.metadata_suffix_semantic
    metadata_suffix_keyword := ic.metadata_suffix_keyword
    mini_chunk_texts := ic.mini_chunk_texts
    large_chunk_reference_ids := ic.large_chunk_reference_ids
    embeddings := ic.embeddings.dict
    title_embedding := ic.title_embedding }

/-- `DocMetadataAwareIndexChunk.from_index_chunk`:
`index_chunk_data = index_chunk.dict()` followed by
`cls(**index_chunk_data, access=access, document_sets=document_sets,
boost=boost)`, which re-validates the serialized nested models. -/
def DocMetadataAwareIndexChunk.from_index_chunk (index_chunk : IndexChunk)
    (access : DocumentAccess) (document_sets : List String) (boost : Int) :
    DocMetadataAwareIndexChunk :=
  let index_chunk_data := index_chunk.dict
  { chunk_id := index_chunk_data.chunk_id
    blurb := index_chunk_data.blurb
    content := index_chunk_data.content
    source_links := index_chunk_data.source_links
    section_continuation := index_chunk_data.section_continuation
    source_document := Document.ofDict index_chunk_data.source_document
    title_prefix := index_chunk_data.title_prefix
    metadata_suffix_semantic := index_chunk_data.metadata_suffix_semantic
    metadata_suffix_keyword := index_chunk_data.metadata_suffix_keyword
    mini_chunk_texts := index_chunk_data.mini_chunk_texts
    large_chunk_reference_ids := index_chunk_data.large_chunk_reference_ids
    embeddings := ChunkEmbedding.ofDict index_chunk_data.embeddings
    title_embedding := index_chunk_data.title_embedding
    access := access
    document_sets := document_sets
    boost := boost }

/-- `from_index_chunk` as a call with explicit caller state: the pair of the
constructed value and the caller's `index_chunk` as it stands when the call
returns. The body performs only reads of `index_chunk` (the `.dict()`
serialization), so the second component is the argument it received. -/
def DocMetadataAwareIndexChunk.from_index_chunk_call (index_chunk : IndexChunk)
    (access : DocumentAccess) (document_sets : List String) (boost : Int) :
    DocMetadataAwareIndexChunk × IndexChunk :=
  let index_chunk_data := index_chunk.dict
  ({ chunk_id := index_chunk_data.chunk_id
     blurb := index_chunk_data.blurb
     content := index_chunk_data.content
     source_links := index_chunk_data.source_links
     section_continuation := index_chunk_data.section_continuation
     source_document := Document.ofDict index_chunk_data.source_document
     title_prefix := index_chunk_data.title_prefix
     metadata_suffix_semantic := index_chunk_data.metadata_suffix_semantic
     metadata_suffix_keyword := index_chunk_data.metadata_suffix_keyword
     mini_chunk_texts := index_chunk_data.mini_chunk_texts
     large_chunk_reference_ids := index_chunk_data.large_chunk_reference_ids
     embeddings := ChunkEmbedding.ofDict index_chunk_data.embeddings
     title_embedding := index_chunk_data.title_embedding
     access := access
     document_sets := document_sets
     boost := boost }, index_chunk)

/-- Modelled from the spec: the live embedding-model configuration record
(`danswer.db.models.EmbeddingModel`, not under src/) "exposing model_name,
model_dim, normalize, query_prefix, passage_prefix, cloud_provider_id". -/
structure EmbeddingModel where
  model_name : String
  model_dim : Int
  normalize : Bool
  query_prefix : Option String
  passage_prefix : Option String
  cloud_provider_id : Option Int
  deriving DecidableEq, Repr

/-- `class EmbeddingModelDetail(BaseModel)`, with the declared pydantic
defaults `cloud_provider_id = None` and `cloud_provider_name = None`. -/
structure EmbeddingModelDetail where
  model_name : String
  model_dim : Int
  normalize : Bool
  query_prefix : Option String
  passage_prefix : Option String
  cloud_provider_id : Option Int := none
  cloud_provider_name : Option String := none
  deriving DecidableEq, Repr

/-- `EmbeddingModelDetail.from_model`: copies the six listed fields of the
configuration record; `cloud_provider_name` is not passed, so it stays at its
declared default `None`. -/
def EmbeddingModelDetail.from_model (embedding_model : EmbeddingModel) :
    EmbeddingModelDetail :=
  { model_name := embedding_model.model_name
    model_dim := embedding_model.model_dim
    normalize := embedding_model.normalize
    query_prefix := embedding_model.query_prefix
    passage_prefix := embedding_model.passage_prefix
    cloud_provider_id := embedding_model.cloud_provider_id }

/-! ## Pydantic keyword construction

Pydantic builds a model from keyword arguments: a field with no declared
default must be supplied or validation fails with a missing-field error; a
field with a declared default takes that default when absent; no other
cross-field check runs for these classes. The validating constructors below
make that construction step explicit: each keyword is an `Option` (absent or
supplied), and the result is `none` exactly when a required keyword is
absent. `source_links` is declared `dict[int, str] | None` with no explicit
default, which pydantic (v1, as this codebase uses) reads as defaulting to
`None`; its keyword is therefore doubly optional. -/

/-- Pydantic keyword construction of `BaseChunk`: `chunk_id`, `blurb`,
`content` and `section_continuation` are required; `source_links` defaults
to `None` when absent. -/
def BaseChunk.validate (chunk_id : Option Int) (blurb : Option String)
    (content : Option String) (source_links : Option (Option (List (Int × String))))
    (section_continuation : Option Bool) : Option BaseChunk :=
  match chunk_id, blurb, content, section_continuation with
  | some cid, some b, some c, some sc =>
      some { chunk_id := cid, blurb := b, content := c,
             source_links := source_links.getD none, section_continuation := sc }
  | _, _, _, _ => none

/-- Pydantic keyword construction of `DocAwareChunk` with the
`large_chunk_reference_ids` keyword absent: the declared default `= []`
applies (pydantic copies the declared empty list into the new value). -/
def DocAwareChunk.construct_without_reference_ids (base : BaseChunk)
    (source_document : Document) ( title_prefix : String)
    (metadata_suffix_semantic : String) (metadata_suffix_keyword : String)
    (mini_chunk_texts : Option (List String)) : DocAwareChunk :=
  { toBaseChunk := base
    source_document := source_document
    title_prefix := title_prefix
    metadata_suffix_semantic := metadata_suffix_semantic
    metadata_suffix_keyword := metadata_suffix_keyword
    mini_chunk_texts := mini_chunk_texts }

/-! ## The embedded-text assembly and its stripping -/

/-- Modelled from the spec: the indexing text-builder (not under src/)
assembles the text that gets embedded by concatenating the title prefix, the
chunk content, and the metadata suffix of the chosen search path —
`metadata_suffix_semantic` on the semantic path, `metadata_suffix_keyword`
on the lexical path. -/
def DocAwareChunk.assembled_text (c : DocAwareChunk) (semantic : Bool) : String :=
  c.title_prefix ++ c.content ++
    (if semantic then c.metadata_suffix_semantic else c.metadata_suffix_keyword)

/-- Modelled from the spec: post-hoc stripping removes exactly the known
prefix and suffix substrings from an assembled text — the prefix's length of
characters from the front and the suffix's length from the back. -/
def stripAffixes (pre suf text : String) : String :=
  String.mk ((text.data.drop pre.data.length).take
    ((text.data.drop pre.data.length).length - suf.data.length))

/-! ## Concrete values used by counterexamples -/

/-- A concrete source document. -/
def doc1 : Document :=
  { id := "D1", short_descriptor := "ID: D1" }

/-- A concrete `IndexChunk` whose `mini_chunk_texts` holds one text while
`embeddings.mini_chunk_embeddings` holds none: pydantic accepts it, since
`IndexChunk` declares no arity validator. -/
def mismatchedIndexChunk : IndexChunk :=
  { chunk_id := 0
    blurb := "Hello"
    content := "Hello world"
    source_links := none
    section_continuation := false
    source_document := doc1
    title_prefix := ""
    metadata_suffix_semantic := ""
    metadata_suffix_keyword := ""
    mini_chunk_texts := some ["Hello world"]
    large_chunk_reference_ids := []
    embeddings := { full_embedding := [1/10, 2/10], mini_chunk_embeddings := [] }
    title_embedding := none }

/-- A concrete `IndexChunk` with an empty `title_prefix` and a present
`title_embedding`: pydantic accepts it, since `IndexChunk` relates the two
fields by no validator. -/
def emptyTitleIndexChunk : IndexChunk :=
  { chunk_id := 1
    blurb := "Hello"
    content := "Hello world"
    source_links := none
    section_continuation := false
    source_document := doc1
    title_prefix := ""
    metadata_suffix_semantic := ""
    metadata_suffix_keyword := ""
    mini_chunk_texts := none
    large_chunk_reference_ids := []
    embeddings := { full_embedding := [1/10], mini_chunk_embeddings := [] }
    title_embedding := some [3/10, 4/10] }

/-! ## Theorems -/

/-- C1: `DocMetadataAwareIndexChunk.from_index_chunk ic access document_sets
boost` returns a value in which every field inherited from `ic` (chunk_id,
blurb, content, source_links, section_continuation, source_document,
title_prefix, metadata_suffix_semantic, metadata_suffix_keyword,
mini_chunk_texts, large_chunk_reference_ids, embeddings, title_embedding)
equals the corresponding field of `ic` by value-equality, and whose
`access`, `document_sets` and `boost` fields equal the given arguments
exactly. -/
theorem from_index_chunk_extends_fields (ic : IndexChunk)
    (access : DocumentAccess) (document_sets : List String) (boost : Int) :
    let r := DocMetadataAwareIndexChunk.from_index_chunk ic access document_sets boost
    r.chunk_id = ic.chunk_id ∧ r.blurb = ic.blurb ∧ r.content = ic.content ∧
    r.source_links = ic.source_links ∧
    r.section_continuation = ic.section_continuation ∧
    r.source_document = ic.source_document ∧
    r.title_prefix = ic.title_prefix ∧
    r.metadata_suffix_semantic = ic.metadata_suffix_semantic ∧
    r.metadata_suffix_keyword = ic.metadata_suffix_keyword ∧
    r.mini_chunk_texts = ic.mini_chunk_texts ∧
    r.large_chunk_reference_ids = ic.large_chunk_reference_ids ∧
    r.embeddings = ic.embeddings ∧
    r.title_embedding = ic.title_embedding ∧
    r.access = access ∧ r.document_sets = document_sets ∧ r.boost = boost :=
  ⟨rfl, rfl, rfl, rfl, rfl, rfl, rfl, rfl, rfl, rfl, rfl, rfl, rfl, rfl, rfl, rfl⟩

/-- C2 counterexample: an `IndexChunk` with `mini_chunk_texts` present
(one text) and zero `mini_chunk_embeddings` is a constructed value of the
class — construction does not fail on the arity mismatch. -/
theorem mismatched_index_chunk_exists :
    mismatchedIndexChunk.mini_chunk_texts = some ["Hello world"] ∧
    mismatchedIndexChunk.embeddings.mini_chunk_embeddings.length = 0 ∧
    mismatchedIndexChunk.embeddings.mini_chunk_embeddings.length ≠
      (["Hello world"] : List String).length :=
  ⟨rfl, rfl, by decide⟩

/-- C2 amended: `IndexChunk` construction performs no arity check — for any
mini-chunk texts and any (unrelated) list of mini-chunk embeddings, a chunk
carrying exactly those is constructible; consistency between the two counts
is the producing component's responsibility, not enforced at construction. -/
theorem index_chunk_no_arity_check (texts : List String)
    (embs : List Embedding) (fe : Embedding) :
    ∃ ic : IndexChunk, ic.mini_chunk_texts = some texts ∧
      ic.embeddings.mini_chunk_embeddings = embs ∧
      ic.embeddings.full_embedding = fe :=
  ⟨{ chunk_id := 0, blurb := "", content := "", source_links := none,
     section_continuation := false, source_document := doc1,
     title_prefix := "", metadata_suffix_semantic := "",
     metadata_suffix_keyword := "", mini_chunk_texts := some texts,
     large_chunk_reference_ids := [],
     embeddings := { full_embedding := fe, mini_chunk_embeddings := embs },
     title_embedding := none }, rfl, rfl, rfl⟩

/-- C3: `to_short_descriptor` is a total function of the chunk value (hence
deterministic, and defined also when `source_links` is `None` or
`mini_chunk_texts` is empty or `None`), and its result is exactly
`"Chunk ID: '" ++ str(chunk_id) ++ "'; "` followed by the source document's
own short descriptor. -/
theorem to_short_descriptor_spec (c : DocAwareChunk) :
    c.to_short_descriptor =
      "Chunk ID: '" ++ toString c.chunk_id ++ "'; " ++
        c.source_document.to_short_descriptor :=
  rfl

/-- C4: `EmbeddingModelDetail.from_model m` copies `model_name`, `model_dim`,
`normalize`, `query_prefix`, `passage_prefix` and `cloud_provider_id` from
the configuration record, and leaves `cloud_provider_name` at `None`
regardless of `m`. -/
theorem from_model_spec (m : EmbeddingModel) :
    (EmbeddingModelDetail.from_model m).model_name = m.model_name ∧
    (EmbeddingModelDetail.from_model m).model_dim = m.model_dim ∧
    (EmbeddingModelDetail.from_model m).normalize = m.normalize ∧
    EmbeddingModelDetail.query_prefix (EmbeddingModelDetail.from_model m) = m.query_prefix ∧
    EmbeddingModelDetail.passage_prefix (EmbeddingModelDetail.from_model m) = m.passage_prefix ∧
    (EmbeddingModelDetail.from_model m).cloud_provider_id = m.cloud_provider_id ∧
    (EmbeddingModelDetail.from_model m).cloud_provider_name = none :=
  ⟨rfl, rfl, rfl, rfl, rfl, rfl, rfl⟩

/-- Stripping the exact prefix and suffix from `p ++ m ++ s` returns `m`. -/
theorem stripAffixes_append (p m s : String) :
    stripAffixes p s (p ++ m ++ s) = m := by
  unfold stripAffixes
  have h : (p ++ m ++ s).data = p.data ++ (m.data ++ s.data) := by
    simp [String.data_append]
  rw [h, List.drop_left]
  have h2 : (m.data ++ s.data).length - s.data.length = m.data.length := by
    simp
  rw [h2, List.take_left]

/-- C5: assembling the embedded text of a `DocAwareChunk` — title prefix,
then content, then the metadata suffix of the chosen path (semantic or
keyword) — and then removing exactly the known prefix and suffix substrings
yields the original `content` (round-trip law). -/
theorem assembled_text_roundtrip (c : DocAwareChunk) (semantic : Bool) :
    stripAffixes c.title_prefix
      (if semantic then c.metadata_suffix_semantic else c.metadata_suffix_keyword)
      (c.assembled_text semantic) = c.content :=
  stripAffixes_append c.title_prefix c.content
    (if semantic then c.metadata_suffix_semantic else c.metadata_suffix_keyword)

/-- C7 counterexample: an `IndexChunk` with `title_prefix = ""` and a present
`title_embedding` is a constructed value of the class — the type forces no
relation between the two fields. -/
theorem empty_title_with_title_embedding :
    emptyTitleIndexChunk.title_prefix = "" ∧
    emptyTitleIndexChunk.title_embedding ≠ none :=
  ⟨rfl, fun h => Option.noConfusion h⟩

/-- C7 amended: the `IndexChunk` class leaves `title_embedding` unconstrained
by `title_prefix`: a chunk with any combination of the two fields is
constructible. Presence of `title_embedding` only alongside a non-empty
`title_prefix` is a convention of the producing pipeline, not enforced at
construction. -/
theorem title_embedding_unconstrained (tp : String) (te : Option Embedding) :
    ∃ ic : IndexChunk, ic.title_prefix = tp ∧ ic.title_embedding = te :=
  ⟨{ chunk_id := 0, blurb := "", content := "", source_links := none,
     section_continuation := false, source_document := doc1,
     title_prefix := tp, metadata_suffix_semantic := "",
     metadata_suffix_keyword := "", mini_chunk_texts := none,
     large_chunk_reference_ids := [],
     embeddings := { full_embedding := [], mini_chunk_embeddings := [] },
     title_embedding := te }, rfl, rfl⟩

/-- C8: pydantic keyword construction of `BaseChunk` fails exactly when a
required field (`chunk_id`, `blurb`, `content`, `section_continuation`) is
absent, and when it succeeds every supplied field is taken exactly as given
— no required field is silently defaulted. -/
theorem base_chunk_required_fields (chunk_id : Option Int)
    (blurb : Option String) (content : Option String)
    (source_links : Option (Option (List (Int × String))))
    (section_continuation : Option Bool) :
    ((BaseChunk.validate chunk_id blurb content source_links
        section_continuation).isSome =
      (chunk_id.isSome && blurb.isSome && content.isSome &&
        section_continuation.isSome)) ∧
    ∀ cid b c sc,
      BaseChunk.validate (some cid) (some b) (some c) source_links (some sc) =
        some { chunk_id := cid, blurb := b, content := c,
               source_links := source_links.getD none,
               section_continuation := sc } := by
  constructor
  · cases chunk_id <;> cases blurb <;> cases content <;>
      cases section_continuation <;> rfl
  · intro cid b c sc
    rfl

/-- C9: constructing a `DocAwareChunk` without supplying
`large_chunk_reference_ids` yields the declared default: the empty list. -/
theorem construct_without_reference_ids_default (base : BaseChunk)
    (d : Document) (tp ms msk : String) (mct : Option (List String)) :
    (DocAwareChunk.construct_without_reference_ids base d tp ms msk
      mct).large_chunk_reference_ids = [] :=
  rfl

/-- C10: the `from_index_chunk` call leaves its `index_chunk` argument
unchanged — in the state-passing reading of the call, every field of the
caller's chunk after the call equals its value before, because the body only
reads the chunk (through the `.dict()` serialization) and builds a fresh
value. -/
theorem from_index_chunk_leaves_argument (ic : IndexChunk)
    (access : DocumentAccess) (document_sets : List String) (boost : Int) :
    let after := (DocMetadataAwareIndexChunk.from_index_chunk_call ic access
      document_sets boost).2
    after.chunk_id = ic.chunk_id ∧ after.blurb = ic.blurb ∧
    after.content = ic.content ∧ after.source_links = ic.source_links ∧
    after.section_continuation = ic.section_continuation ∧
    after.source_document = ic.source_document ∧
    after.title_prefix = ic.title_prefix ∧
    after.metadata_suffix_semantic = ic.metadata_suffix_semantic ∧
    after.metadata_suffix_keyword = ic.metadata_suffix_keyword ∧
    after.mini_chunk_texts = ic.mini_chunk_texts ∧
    after.large_chunk_reference_ids = ic.large_chunk_reference_ids ∧
    after.embeddings = ic.embeddings ∧
    after.title_embedding = ic.title_embedding ∧ after = ic :=
  ⟨rfl, rfl, rfl, rfl, rfl, rfl, rfl, rfl, rfl, rfl, rfl, rfl, rfl, rfl⟩
